import Mathlib

/-!
Shallow embedding of `src/tiled/scriptedtool.cpp` (class `Tiled::ScriptedTool`).

The file under verification is an event-forwarding adapter: each host tool
event handler optionally forwards to a same-named callback property on a
user-supplied script object, via `ScriptedTool::call`.  We model `QJSValue`
as an inductive, the script object as an association list of properties, and
each handler as a function producing the observable trace of effects
(framework default calls, script invocations with their receiver, arguments
and result, error checks, error throws, plugin registration, brush-visibility
updates).  The embedded JS engine is abstract: an `Engine` assigns a result
value to each invocation, since invocation results come from user script code
outside this file.  Coordinates and enum values (`qreal` positions, key
codes, `Qt::MouseButton`, `Qt::KeyboardModifiers`) are forwarded verbatim by
the adapter, never computed with, so they are modelled as `Int`.
-/

namespace Tiled

/-- Model of `QJSValue`: the value kinds the adapter distinguishes.
`callable id` stands for a JS function (identified abstractly), `qobjectV id`
for a wrapper produced by `QJSEngine::newQObject` around a host object. -/
inductive QJSValue where
  | undefined
  | nullValue
  | boolV (b : Bool)
  | intV (n : Int)
  | stringV (s : String)
  | callable (id : Nat)
  | qobjectV (id : Nat)
deriving DecidableEq

/-- `QJSValue::isString`. -/
def QJSValue.isString : QJSValue → Bool
  | .stringV _ => true
  | _ => false

/-- `QJSValue::isCallable`. -/
def QJSValue.isCallable : QJSValue → Bool
  | .callable _ => true
  | _ => false

/-- `QJSValue::toString`; the adapter only reads it after `isString`, so only
the string case matters. -/
def QJSValue.toStringQ : QJSValue → String
  | .stringV s => s
  | _ => ""

/-- The user-supplied script object: a finite map of named properties. -/
structure ScriptObject where
  props : List (String × QJSValue)
deriving DecidableEq

/-- `QJSValue::property`: an absent property reads as `undefined`. -/
def ScriptObject.property (o : ScriptObject) (name : String) : QJSValue :=
  match o.props.find? (fun p => p.1 == name) with
  | some p => p.2
  | none => QJSValue.undefined

/-- The receiver (`this`) a callback is invoked with: in the source,
`engine->newQObject(this)` with `setPrototype(mScriptObject)`. -/
structure Receiver where
  wrapsAdapter : Bool
  prototype : ScriptObject
deriving DecidableEq

/-- The abstract JS engine: the result each `callWithInstance` returns.
Results come from running user script code, which is outside this file. -/
structure Engine where
  callResult : String → Receiver → List QJSValue → QJSValue

/-- Observable effects of the adapter, in order of occurrence:
default framework behavior (`AbstractTileTool::...` and
`AbstractTool::...` base calls), script callback invocations,
`ScriptManager::checkError` on a result, `ScriptManager::throwError`,
`updateBrushVisibility`, and `PluginManager` registration. -/
inductive Effect where
  | abstractTileToolCall (method : String)
  | abstractToolCall (method : String)
  | invokeScript (method : String) (recv : Receiver) (args : List QJSValue)
      (result : QJSValue)
  | checkErrorE (result : QJSValue)
  | throwErrorE (message : String)
  | updateBrushVisibilityE
  | addObjectE
  | removeObjectE
deriving DecidableEq

/-- The adapter's state: the stored script object and the tool name.
(`mScene` is also stored by the source but is host scene bookkeeping with no
script-visible effect in any handler modelled here.) -/
structure ScriptedTool where
  mScriptObject : ScriptObject
  mName : String
deriving DecidableEq

/-- `ScriptedTool::ScriptedTool` (lines 35-47): the base constructor sets the
name `"<unnamed tool>"`; a string `name` property that is non-empty overrides
it; the tool is always registered with the plugin manager. -/
def ScriptedTool.construct (object : ScriptObject) : ScriptedTool × List Effect :=
  let tool0 : ScriptedTool := ⟨object, "<unnamed tool>"⟩
  let nameProperty := ScriptObject.property object "name"
  let tool1 :=
    if nameProperty.isString then
      let name := nameProperty.toStringQ
      if !name.isEmpty then ⟨object, name⟩ else tool0
    else tool0
  (tool1, [Effect.addObjectE])

/-- `ScriptedTool::call` (lines 219-236): look up the property; when callable,
invoke it with receiver `newQObject(this)` whose prototype is the script
object, check the result for errors, and return `true`; otherwise `false`. -/
def ScriptedTool.call (tool : ScriptedTool) (eng : Engine) (methodName : String)
    (args : List QJSValue) : Bool × List Effect :=
  let method := ScriptObject.property tool.mScriptObject methodName
  if method.isCallable then
    let self : Receiver := ⟨true, tool.mScriptObject⟩
    let result := eng.callResult methodName self args
    (true, [Effect.invokeScript methodName self args result,
            Effect.checkErrorE result])
  else
    (false, [])

/-- `ScriptedTool::activate` (lines 74-79). -/
def ScriptedTool.activate (tool : ScriptedTool) (eng : Engine) : List Effect :=
  Effect.abstractTileToolCall "activate" :: (tool.call eng "activated" []).2

/-- `ScriptedTool::deactivate` (lines 81-86). -/
def ScriptedTool.deactivate (tool : ScriptedTool) (eng : Engine) : List Effect :=
  Effect.abstractTileToolCall "deactivate" :: (tool.call eng "deactivated" []).2

/-- `ScriptedTool::keyPressed` (lines 88-95). -/
def ScriptedTool.keyPressed (tool : ScriptedTool) (eng : Engine)
    (key modifiers : Int) : List Effect :=
  (tool.call eng "keyPressed" [QJSValue.intV key, QJSValue.intV modifiers]).2

/-- `ScriptedTool::mouseEntered` (lines 97-101). -/
def ScriptedTool.mouseEntered (tool : ScriptedTool) (eng : Engine) : List Effect :=
  Effect.abstractTileToolCall "mouseEntered" :: (tool.call eng "mouseEntered" []).2

/-- `ScriptedTool::mouseLeft` (lines 103-107).  The source's line 106 reads
`call(QStringLiteral("mouseEntered"))`: the mouse-leave handler looks up the
property named `"mouseEntered"`, not `"mouseLeft"`. -/
def ScriptedTool.mouseLeft (tool : ScriptedTool) (eng : Engine) : List Effect :=
  Effect.abstractTileToolCall "mouseLeft" :: (tool.call eng "mouseEntered" []).2

/-- `ScriptedTool::mouseMoved` (lines 109-119). -/
def ScriptedTool.mouseMoved (tool : ScriptedTool) (eng : Engine)
    (posX posY modifiers : Int) : List Effect :=
  Effect.abstractTileToolCall "mouseMoved" ::
    (tool.call eng "mouseMoved"
      [QJSValue.intV posX, QJSValue.intV posY, QJSValue.intV modifiers]).2

/-- `QGraphicsSceneMouseEvent`: the fields the adapter reads. -/
structure QGraphicsSceneMouseEvent where
  button : Int
  posX : Int
  posY : Int
  modifiers : Int
deriving DecidableEq

/-- The argument list built identically at lines 123-127, 134-138, 145-149:
`event->button(), event->pos().x(), event->pos().y(), event->modifiers()`. -/
def sceneMouseEventArgs (event : QGraphicsSceneMouseEvent) : List QJSValue :=
  [QJSValue.intV event.button, QJSValue.intV event.posX,
   QJSValue.intV event.posY, QJSValue.intV event.modifiers]

/-- `ScriptedTool::mousePressed` (lines 121-130). -/
def ScriptedTool.mousePressed (tool : ScriptedTool) (eng : Engine)
    (event : QGraphicsSceneMouseEvent) : List Effect :=
  (tool.call eng "mousePressed" (sceneMouseEventArgs event)).2

/-- `ScriptedTool::mouseReleased` (lines 132-141). -/
def ScriptedTool.mouseReleased (tool : ScriptedTool) (eng : Engine)
    (event : QGraphicsSceneMouseEvent) : List Effect :=
  (tool.call eng "mouseReleased" (sceneMouseEventArgs event)).2

/-- `ScriptedTool::mouseDoubleClicked` (lines 143-153): when the
`"mouseDoubleClicked"` callback is not callable, the event is re-dispatched
through `mousePressed`. -/
def ScriptedTool.mouseDoubleClicked (tool : ScriptedTool) (eng : Engine)
    (event : QGraphicsSceneMouseEvent) : List Effect :=
  let r := tool.call eng "mouseDoubleClicked" (sceneMouseEventArgs event)
  if r.1 then r.2 else r.2 ++ tool.mousePressed eng event

/-- `ScriptedTool::modifiersChanged` (lines 155-161). -/
def ScriptedTool.modifiersChanged (tool : ScriptedTool) (eng : Engine)
    (modifiers : Int) : List Effect :=
  (tool.call eng "modifiersChanged" [QJSValue.intV modifiers]).2

/-- `ScriptedTool::languageChanged` (lines 163-166). -/
def ScriptedTool.languageChanged (tool : ScriptedTool) (eng : Engine) : List Effect :=
  (tool.call eng "languageChanged" []).2

/-- `ScriptedTool::validateToolObject` (lines 174-184). -/
def ScriptedTool.validateToolObject (value : ScriptObject) : Bool × List Effect :=
  let nameProperty := ScriptObject.property value "name"
  if !nameProperty.isString then
    (false,
     [Effect.throwErrorE "Invalid tool object (requires string \x27name\x27 property)"])
  else
    (true, [])

/-- A `MapDocument*` argument: `engine->newQObject(document->editable())` for a
non-null document, `QJSValue::NullValue` for a null one (lines 194-195).
A document is identified abstractly by the id its editable wrapper gets. -/
def editableOrNull : Option Nat → QJSValue
  | some d => QJSValue.qobjectV d
  | none => QJSValue.nullValue

/-- `ScriptedTool::mapDocumentChanged` (lines 186-198). -/
def ScriptedTool.mapDocumentChanged (tool : ScriptedTool) (eng : Engine)
    (oldDocument newDocument : Option Nat) : List Effect :=
  Effect.abstractTileToolCall "mapDocumentChanged" ::
    (tool.call eng "mapChanged"
      [editableOrNull oldDocument, editableOrNull newDocument]).2

/-- `ScriptedTool::tilePositionChanged` (lines 200-207). -/
def ScriptedTool.tilePositionChanged (tool : ScriptedTool) (eng : Engine)
    (tileX tileY : Int) : List Effect :=
  (tool.call eng "tilePositionChanged" [QJSValue.intV tileX, QJSValue.intV tileY]).2

/-- `ScriptedTool::updateEnabledState` (lines 209-217): the generic
`AbstractTool::updateEnabledState` (deliberately skipping `AbstractTileTool`)
runs only when the callback is missing; `updateBrushVisibility` always runs. -/
def ScriptedTool.updateEnabledState (tool : ScriptedTool) (eng : Engine) : List Effect :=
  (let r := tool.call eng "updateEnabledState" []
   if r.1 then r.2 else r.2 ++ [Effect.abstractToolCall "updateEnabledState"]) ++
  [Effect.updateBrushVisibilityE]

/-! ### Trace observations -/

/-- The argument lists of the script invocations of hook `name` in a trace. -/
def callbackArgs (tr : List Effect) (name : String) : List (List QJSValue) :=
  tr.filterMap fun e =>
    match e with
    | Effect.invokeScript n _ a _ => if n == name then some a else none
    | _ => none

/-- The argument lists of all script invocations in a trace. -/
def invokedArgsAll (tr : List Effect) : List (List QJSValue) :=
  tr.filterMap fun e =>
    match e with
    | Effect.invokeScript _ _ a _ => some a
    | _ => none

/-- The results of all script invocations in a trace. -/
def invokedResults (tr : List Effect) : List QJSValue :=
  tr.filterMap fun e =>
    match e with
    | Effect.invokeScript _ _ _ r => some r
    | _ => none

/-- The values passed to `ScriptManager::checkError` in a trace. -/
def checkedResults (tr : List Effect) : List QJSValue :=
  tr.filterMap fun e =>
    match e with
    | Effect.checkErrorE r => some r
    | _ => none

/-- The receivers of all script invocations in a trace. -/
def receiversUsed (tr : List Effect) : List Receiver :=
  tr.filterMap fun e =>
    match e with
    | Effect.invokeScript _ recv _ _ => some recv
    | _ => none

/-- The messages passed to `ScriptManager::throwError` in a trace. -/
def throwsOf (tr : List Effect) : List String :=
  tr.filterMap fun e =>
    match e with
    | Effect.throwErrorE s => some s
    | _ => none

/-- The `AbstractTileTool` default-behavior calls in a trace. -/
def abstractTileToolCalls (tr : List Effect) : List String :=
  tr.filterMap fun e =>
    match e with
    | Effect.abstractTileToolCall m => some m
    | _ => none

/-- The `AbstractTool` default-behavior calls in a trace. -/
def abstractToolCalls (tr : List Effect) : List String :=
  tr.filterMap fun e =>
    match e with
    | Effect.abstractToolCall m => some m
    | _ => none

/-- A concrete engine for closed evaluations: every invocation returns
`undefined`. -/
def engUndef : Engine :=
  ⟨fun _ _ _ => QJSValue.undefined⟩

/-! ### Lemmas about `ScriptedTool.call` -/

theorem call_fst (tool : ScriptedTool) (eng : Engine) (m : String)
    (args : List QJSValue) :
    (tool.call eng m args).1 =
      (ScriptObject.property tool.mScriptObject m).isCallable := by
  unfold ScriptedTool.call
  by_cases h : (ScriptObject.property tool.mScriptObject m).isCallable <;> simp [h]

theorem call_snd (tool : ScriptedTool) (eng : Engine) (m : String)
    (args : List QJSValue) :
    (tool.call eng m args).2 =
      if (ScriptObject.property tool.mScriptObject m).isCallable then
        [Effect.invokeScript m ⟨true, tool.mScriptObject⟩ args
           (eng.callResult m ⟨true, tool.mScriptObject⟩ args),
         Effect.checkErrorE (eng.callResult m ⟨true, tool.mScriptObject⟩ args)]
      else [] := by
  unfold ScriptedTool.call
  by_cases h : (ScriptObject.property tool.mScriptObject m).isCallable <;> simp [h]

/-! ### Claim theorems -/

/-- C3: `validateToolObject` rejects every tool object whose `name` property is
not a string, reporting the user-visible error through the script error
reporter and returning `false`; for every object whose `name` property is a
string it returns `true` without reporting an error. -/
theorem validateToolObject_requires_string_name (value : ScriptObject) :
    ScriptedTool.validateToolObject value =
      if (ScriptObject.property value "name").isString then
        (true, [])
      else
        (false,
         [Effect.throwErrorE
            "Invalid tool object (requires string \x27name\x27 property)"]) := by
  unfold ScriptedTool.validateToolObject
  by_cases h : (ScriptObject.property value "name").isString <;> simp [h]

/-- C4: `call` returns `true` exactly when the script object's property of the
method name is callable; it never throws a user-visible error, and it runs the
error check (the only error-reporting path it has) exactly on the results of
actual invocations — so a missing callback yields `false` with no error
reported. -/
theorem call_missing_callback_is_silent (tool : ScriptedTool) (eng : Engine)
    (m : String) (args : List QJSValue) :
    (tool.call eng m args).1 =
        (ScriptObject.property tool.mScriptObject m).isCallable
    ∧ throwsOf (tool.call eng m args).2 = []
    ∧ checkedResults (tool.call eng m args).2 =
        (if (ScriptObject.property tool.mScriptObject m).isCallable then
          [eng.callResult m ⟨true, tool.mScriptObject⟩ args]
        else []) := by
  refine ⟨call_fst tool eng m args, ?_, ?_⟩ <;>
    rw [call_snd] <;>
    by_cases h : (ScriptObject.property tool.mScriptObject m).isCallable <;>
    simp [h, throwsOf, checkedResults]

/-- C6: every script invocation `call` performs uses as receiver the wrapper of
the adapter object (`newQObject(this)`) with its prototype set to the
user-supplied script object, so receiver property lookups fall back to the
user object's members. -/
theorem call_receiver_wraps_adapter_with_script_prototype (tool : ScriptedTool)
    (eng : Engine) (m : String) (args : List QJSValue) :
    receiversUsed (tool.call eng m args).2 =
      if (ScriptObject.property tool.mScriptObject m).isCallable then
        [⟨true, tool.mScriptObject⟩]
      else [] := by
  rw [call_snd]
  by_cases h : (ScriptObject.property tool.mScriptObject m).isCallable <;>
    simp [h, receiversUsed]

/-- C5: in the trace of `call` and of every event handler, the values passed to
`ScriptManager::checkError` are exactly the results of the script invocations
made: every callback result is checked for errors. -/
theorem every_callback_result_checked (tool : ScriptedTool) (eng : Engine)
    (m : String) (args : List QJSValue) (key modifiers posX posY tileX tileY : Int)
    (e : QGraphicsSceneMouseEvent) (oldDocument newDocument : Option Nat) :
    checkedResults (tool.call eng m args).2 =
        invokedResults (tool.call eng m args).2
    ∧ checkedResults (tool.activate eng) = invokedResults (tool.activate eng)
    ∧ checkedResults (tool.deactivate eng) = invokedResults (tool.deactivate eng)
    ∧ checkedResults (tool.keyPressed eng key modifiers) =
        invokedResults (tool.keyPressed eng key modifiers)
    ∧ checkedResults (tool.mouseEntered eng) = invokedResults (tool.mouseEntered eng)
    ∧ checkedResults (tool.mouseLeft eng) = invokedResults (tool.mouseLeft eng)
    ∧ checkedResults (tool.mouseMoved eng posX posY modifiers) =
        invokedResults (tool.mouseMoved eng posX posY modifiers)
    ∧ checkedResults (tool.mousePressed eng e) = invokedResults (tool.mousePressed eng e)
    ∧ checkedResults (tool.mouseReleased eng e) =
        invokedResults (tool.mouseReleased eng e)
    ∧ checkedResults (tool.mouseDoubleClicked eng e) =
        invokedResults (tool.mouseDoubleClicked eng e)
    ∧ checkedResults (tool.modifiersChanged eng modifiers) =
        invokedResults (tool.modifiersChanged eng modifiers)
    ∧ checkedResults (tool.languageChanged eng) =
        invokedResults (tool.languageChanged eng)
    ∧ checkedResults (tool.mapDocumentChanged eng oldDocument newDocument) =
        invokedResults (tool.mapDocumentChanged eng oldDocument newDocument)
    ∧ checkedResults (tool.tilePositionChanged eng tileX tileY) =
        invokedResults (tool.tilePositionChanged eng tileX tileY)
    ∧ checkedResults (tool.updateEnabledState eng) =
        invokedResults (tool.updateEnabledState eng) := by
  refine ⟨?_, ?_, ?_, ?_, ?_, ?_, ?_, ?_, ?_, ?_, ?_, ?_, ?_, ?_, ?_⟩
  · by_cases h : (ScriptObject.property tool.mScriptObject m).isCallable <;>
      simp [call_snd, h, checkedResults, invokedResults]
  · by_cases h : (ScriptObject.property tool.mScriptObject "activated").isCallable <;>
      simp [ScriptedTool.activate, call_snd, h, checkedResults, invokedResults]
  · by_cases h : (ScriptObject.property tool.mScriptObject "deactivated").isCallable <;>
      simp [ScriptedTool.deactivate, call_snd, h, checkedResults, invokedResults]
  · by_cases h : (ScriptObject.property tool.mScriptObject "keyPressed").isCallable <;>
      simp [ScriptedTool.keyPressed, call_snd, h, checkedResults, invokedResults]
  · by_cases h : (ScriptObject.property tool.mScriptObject "mouseEntered").isCallable <;>
      simp [ScriptedTool.mouseEntered, call_snd, h, checkedResults, invokedResults]
  · by_cases h : (ScriptObject.property tool.mScriptObject "mouseEntered").isCallable <;>
      simp [ScriptedTool.mouseLeft, call_snd, h, checkedResults, invokedResults]
  · by_cases h : (ScriptObject.property tool.mScriptObject "mouseMoved").isCallable <;>
      simp [ScriptedTool.mouseMoved, call_snd, h, checkedResults, invokedResults]
  · by_cases h : (ScriptObject.property tool.mScriptObject "mousePressed").isCallable <;>
      simp [ScriptedTool.mousePressed, call_snd, h, checkedResults, invokedResults]
  · by_cases h : (ScriptObject.property tool.mScriptObject "mouseReleased").isCallable <;>
      simp [ScriptedTool.mouseReleased, call_snd, h, checkedResults, invokedResults]
  · by_cases h1 : (ScriptObject.property tool.mScriptObject "mouseDoubleClicked").isCallable <;>
      by_cases h2 : (ScriptObject.property tool.mScriptObject "mousePressed").isCallable <;>
      simp [ScriptedTool.mouseDoubleClicked, ScriptedTool.mousePressed, call_fst,
        call_snd, h1, h2, checkedResults, invokedResults]
  · by_cases h : (ScriptObject.property tool.mScriptObject "modifiersChanged").isCallable <;>
      simp [ScriptedTool.modifiersChanged, call_snd, h, checkedResults, invokedResults]
  · by_cases h : (ScriptObject.property tool.mScriptObject "languageChanged").isCallable <;>
      simp [ScriptedTool.languageChanged, call_snd, h, checkedResults, invokedResults]
  · by_cases h : (ScriptObject.property tool.mScriptObject "mapChanged").isCallable <;>
      simp [ScriptedTool.mapDocumentChanged, call_snd, h, checkedResults, invokedResults]
  · by_cases h : (ScriptObject.property tool.mScriptObject "tilePositionChanged").isCallable <;>
      simp [ScriptedTool.tilePositionChanged, call_snd, h, checkedResults, invokedResults]
  · by_cases h : (ScriptObject.property tool.mScriptObject "updateEnabledState").isCallable <;>
      simp [ScriptedTool.updateEnabledState, call_fst, call_snd, h, checkedResults,
        invokedResults]

/-- C7: each hook receives its fixed argument list: key press `(key, modifiers)`;
mouse move `(x, y, modifiers)`; mouse press, release and double-click
`(button, x, y, modifiers)`; modifier change `(modifiers)`; tile-position
change `(x, y)`; map change the old and new editable map wrappers with JS null
for an absent document; activation, deactivation, mouse enter, language change
and enabled-state update no arguments, and every invocation the mouse-leave
handler makes carries no arguments. -/
theorem hook_argument_shapes (tool : ScriptedTool) (eng : Engine)
    (key modifiers posX posY tileX tileY : Int) (e : QGraphicsSceneMouseEvent)
    (oldDocument newDocument : Option Nat) :
    callbackArgs (tool.keyPressed eng key modifiers) "keyPressed" =
      (if (ScriptObject.property tool.mScriptObject "keyPressed").isCallable then
        [[QJSValue.intV key, QJSValue.intV modifiers]] else [])
    ∧ callbackArgs (tool.mouseMoved eng posX posY modifiers) "mouseMoved" =
      (if (ScriptObject.property tool.mScriptObject "mouseMoved").isCallable then
        [[QJSValue.intV posX, QJSValue.intV posY, QJSValue.intV modifiers]] else [])
    ∧ callbackArgs (tool.mousePressed eng e) "mousePressed" =
      (if (ScriptObject.property tool.mScriptObject "mousePressed").isCallable then
        [sceneMouseEventArgs e] else [])
    ∧ callbackArgs (tool.mouseReleased eng e) "mouseReleased" =
      (if (ScriptObject.property tool.mScriptObject "mouseReleased").isCallable then
        [sceneMouseEventArgs e] else [])
    ∧ callbackArgs (tool.mouseDoubleClicked eng e) "mouseDoubleClicked" =
      (if (ScriptObject.property tool.mScriptObject "mouseDoubleClicked").isCallable then
        [sceneMouseEventArgs e] else [])
    ∧ callbackArgs (tool.modifiersChanged eng modifiers) "modifiersChanged" =
      (if (ScriptObject.property tool.mScriptObject "modifiersChanged").isCallable then
        [[QJSValue.intV modifiers]] else [])
    ∧ callbackArgs (tool.tilePositionChanged eng tileX tileY) "tilePositionChanged" =
      (if (ScriptObject.property tool.mScriptObject "tilePositionChanged").isCallable then
        [[QJSValue.intV tileX, QJSValue.intV tileY]] else [])
    ∧ callbackArgs (tool.mapDocumentChanged eng oldDocument newDocument) "mapChanged" =
      (if (ScriptObject.property tool.mScriptObject "mapChanged").isCallable then
        [[editableOrNull oldDocument, editableOrNull newDocument]] else [])
    ∧ callbackArgs (tool.activate eng) "activated" =
      (if (ScriptObject.property tool.mScriptObject "activated").isCallable then
        [([] : List QJSValue)] else [])
    ∧ callbackArgs (tool.deactivate eng) "deactivated" =
      (if (ScriptObject.property tool.mScriptObject "deactivated").isCallable then
        [([] : List QJSValue)] else [])
    ∧ callbackArgs (tool.mouseEntered eng) "mouseEntered" =
      (if (ScriptObject.property tool.mScriptObject "mouseEntered").isCallable then
        [([] : List QJSValue)] else [])
    ∧ (invokedArgsAll (tool.mouseLeft eng)).all List.isEmpty = true
    ∧ callbackArgs (tool.languageChanged eng) "languageChanged" =
      (if (ScriptObject.property tool.mScriptObject "languageChanged").isCallable then
        [([] : List QJSValue)] else [])
    ∧ callbackArgs (tool.updateEnabledState eng) "updateEnabledState" =
      (if (ScriptObject.property tool.mScriptObject "updateEnabledState").isCallable then
        [([] : List QJSValue)] else []) := by
  refine ⟨?_, ?_, ?_, ?_, ?_, ?_, ?_, ?_, ?_, ?_, ?_, ?_, ?_, ?_⟩
  · by_cases h : (ScriptObject.property tool.mScriptObject "keyPressed").isCallable <;>
      simp [ScriptedTool.keyPressed, call_snd, h, callbackArgs]
  · by_cases h : (ScriptObject.property tool.mScriptObject "mouseMoved").isCallable <;>
      simp [ScriptedTool.mouseMoved, call_snd, h, callbackArgs]
  · by_cases h : (ScriptObject.property tool.mScriptObject "mousePressed").isCallable <;>
      simp [ScriptedTool.mousePressed, call_snd, h, callbackArgs]
  · by_cases h : (ScriptObject.property tool.mScriptObject "mouseReleased").isCallable <;>
      simp [ScriptedTool.mouseReleased, call_snd, h, callbackArgs]
  · by_cases h1 : (ScriptObject.property tool.mScriptObject "mouseDoubleClicked").isCallable <;>
      by_cases h2 : (ScriptObject.property tool.mScriptObject "mousePressed").isCallable <;>
      simp [ScriptedTool.mouseDoubleClicked, ScriptedTool.mousePressed, call_fst,
        call_snd, h1, h2, callbackArgs]
  · by_cases h : (ScriptObject.property tool.mScriptObject "modifiersChanged").isCallable <;>
      simp [ScriptedTool.modifiersChanged, call_snd, h, callbackArgs]
  · by_cases h : (ScriptObject.property tool.mScriptObject "tilePositionChanged").isCallable <;>
      simp [ScriptedTool.tilePositionChanged, call_snd, h, callbackArgs]
  · by_cases h : (ScriptObject.property tool.mScriptObject "mapChanged").isCallable <;>
      simp [ScriptedTool.mapDocumentChanged, call_snd, h, callbackArgs]
  · by_cases h : (ScriptObject.property tool.mScriptObject "activated").isCallable <;>
      simp [ScriptedTool.activate, call_snd, h, callbackArgs]
  · by_cases h : (ScriptObject.property tool.mScriptObject "deactivated").isCallable <;>
      simp [ScriptedTool.deactivate, call_snd, h, callbackArgs]
  · by_cases h : (ScriptObject.property tool.mScriptObject "mouseEntered").isCallable <;>
      simp [ScriptedTool.mouseEntered, call_snd, h, callbackArgs]
  · by_cases h : (ScriptObject.property tool.mScriptObject "mouseEntered").isCallable <;>
      simp [ScriptedTool.mouseLeft, call_snd, h, invokedArgsAll]
  · by_cases h : (ScriptObject.property tool.mScriptObject "languageChanged").isCallable <;>
      simp [ScriptedTool.languageChanged, call_snd, h, callbackArgs]
  · by_cases h : (ScriptObject.property tool.mScriptObject "updateEnabledState").isCallable <;>
      simp [ScriptedTool.updateEnabledState, call_fst, call_snd, h, callbackArgs]

/-- C8: when the script object has no callable `mouseDoubleClicked` property, a
double-click event produces exactly the trace of the mouse-press handler on
the same event data (so a callable `mousePressed` hook is invoked instead);
when `mouseDoubleClicked` is callable, the double-click trace is its own
callback invocation and contains no `mousePressed` invocation. -/
theorem doubleclick_redispatches_to_mousePressed (tool : ScriptedTool)
    (eng : Engine) (e : QGraphicsSceneMouseEvent) :
    tool.mouseDoubleClicked eng e =
      (if (ScriptObject.property tool.mScriptObject "mouseDoubleClicked").isCallable
       then (tool.call eng "mouseDoubleClicked" (sceneMouseEventArgs e)).2
       else tool.mousePressed eng e)
    ∧ callbackArgs (tool.mouseDoubleClicked eng e) "mousePressed" =
      (if (ScriptObject.property tool.mScriptObject "mouseDoubleClicked").isCallable
       then []
       else if (ScriptObject.property tool.mScriptObject "mousePressed").isCallable
       then [sceneMouseEventArgs e]
       else []) := by
  constructor
  · by_cases h : (ScriptObject.property tool.mScriptObject "mouseDoubleClicked").isCallable <;>
      simp [ScriptedTool.mouseDoubleClicked, call_fst, call_snd, h]
  · by_cases h1 : (ScriptObject.property tool.mScriptObject "mouseDoubleClicked").isCallable <;>
      by_cases h2 : (ScriptObject.property tool.mScriptObject "mousePressed").isCallable <;>
      simp [ScriptedTool.mouseDoubleClicked, ScriptedTool.mousePressed, call_fst,
        call_snd, h1, h2, callbackArgs]

/-- C9: constructing a `ScriptedTool` never rejects the script object: no error
is thrown, the tool is always registered with the plugin manager, the script
object is stored, and the name is the `name` property's string when that is a
non-empty string and `"<unnamed tool>"` otherwise. -/
theorem construct_never_rejects (object : ScriptObject) :
    throwsOf (ScriptedTool.construct object).2 = []
    ∧ (ScriptedTool.construct object).2 = [Effect.addObjectE]
    ∧ (ScriptedTool.construct object).1.mScriptObject = object
    ∧ (ScriptedTool.construct object).1.mName =
      (if (ScriptObject.property object "name").isString
          && !(ScriptObject.property object "name").toStringQ.isEmpty then
        (ScriptObject.property object "name").toStringQ
      else "<unnamed tool>") := by
  refine ⟨?_, ?_, ?_, ?_⟩ <;>
    by_cases h1 : (ScriptObject.property object "name").isString <;>
    by_cases h2 : (ScriptObject.property object "name").toStringQ.isEmpty <;>
    simp [ScriptedTool.construct, h1, h2, throwsOf]

/-- C10: on every enabled-state update, brush visibility is updated whether or
not the script supplies an `updateEnabledState` callback; the fallback, taken
exactly when the callback is missing, is the generic `AbstractTool` default,
and the `AbstractTileTool` default never runs, so the enabled state does not
depend on a tile layer being selected. -/
theorem updateEnabledState_generic_fallback (tool : ScriptedTool) (eng : Engine) :
    Effect.updateBrushVisibilityE ∈ tool.updateEnabledState eng
    ∧ abstractToolCalls (tool.updateEnabledState eng) =
      (if (ScriptObject.property tool.mScriptObject "updateEnabledState").isCallable
       then [] else ["updateEnabledState"])
    ∧ abstractTileToolCalls (tool.updateEnabledState eng) = [] := by
  refine ⟨?_, ?_, ?_⟩ <;>
    by_cases h : (ScriptObject.property tool.mScriptObject "updateEnabledState").isCallable <;>
    simp [ScriptedTool.updateEnabledState, call_fst, call_snd, h,
      abstractToolCalls, abstractTileToolCalls]

/-! ### Concrete fixtures for closed evaluations -/

/-- A script object supplying only a callable `mouseLeft` hook. -/
def objOnlyMouseLeft : ScriptObject := ⟨[("mouseLeft", QJSValue.callable 0)]⟩

/-- The tool built from `objOnlyMouseLeft`. -/
def toolOnlyMouseLeft : ScriptedTool := (ScriptedTool.construct objOnlyMouseLeft).1

/-- A script object supplying only a callable `mouseEntered` hook. -/
def objOnlyMouseEntered : ScriptObject := ⟨[("mouseEntered", QJSValue.callable 0)]⟩

/-- The tool built from `objOnlyMouseEntered`. -/
def toolOnlyMouseEntered : ScriptedTool :=
  (ScriptedTool.construct objOnlyMouseEntered).1

/-- A script object supplying only a callable `mouseMoved` hook. -/
def objOnlyMouseMoved : ScriptObject := ⟨[("mouseMoved", QJSValue.callable 0)]⟩

/-- The tool built from `objOnlyMouseMoved`. -/
def toolOnlyMouseMoved : ScriptedTool := (ScriptedTool.construct objOnlyMouseMoved).1

/-- C1: the mouse-leave handler does not look up a mouse-leave hook.  On a tool
whose script object supplies only a callable `mouseLeft` property, the
mouse-leave event invokes no script callback at all; on a tool whose script
object supplies only a callable `mouseEntered` property, the mouse-leave event
invokes that `mouseEntered` callback (source line 106 passes
`"mouseEntered"` to `call` inside `ScriptedTool::mouseLeft`). -/
theorem mouseLeft_event_ignores_mouseLeft_hook :
    invokedArgsAll (toolOnlyMouseLeft.mouseLeft engUndef) = []
    ∧ callbackArgs (toolOnlyMouseLeft.mouseLeft engUndef) "mouseLeft" = []
    ∧ callbackArgs (toolOnlyMouseEntered.mouseLeft engUndef) "mouseEntered" =
        [([] : List QJSValue)] := by
  decide

/-- C2 counterexample: with a script object whose `mouseMoved` property is
callable, the mouse-move handler still runs the `AbstractTileTool` framework
default in addition to invoking the callback — the default does not run only
when the callback is missing. -/
theorem default_runs_in_addition_to_callback :
    (ScriptObject.property toolOnlyMouseMoved.mScriptObject "mouseMoved").isCallable
        = true
    ∧ callbackArgs (toolOnlyMouseMoved.mouseMoved engUndef 1 2 0) "mouseMoved" =
        [[QJSValue.intV 1, QJSValue.intV 2, QJSValue.intV 0]]
    ∧ Effect.abstractTileToolCall "mouseMoved" ∈
        toolOnlyMouseMoved.mouseMoved engUndef 1 2 0 := by
  decide

/-- C2 amended: on each host-fired tool event the callback the handler looks up
(the same-named property, except the mouse-leave handler, which looks up the
mouse-enter hook) is invoked exactly when it is callable; but the framework
default is conditioned on the callback in only two places.  Activation,
deactivation, mouse enter, mouse leave, mouse move and map change always run
the `AbstractTileTool` default before the script callback, even when the
callback is callable; key press, mouse press, mouse release, double-click,
modifier change, language change and tile-position change never run a
framework default; the enabled-state update runs the generic `AbstractTool`
default exactly when its callback is missing, and a double-click falls back
to re-dispatching through the mouse-press handler exactly when its callback
is missing. -/
theorem framework_default_per_event (tool : ScriptedTool) (eng : Engine)
    (key modifiers posX posY tileX tileY : Int) (e : QGraphicsSceneMouseEvent)
    (oldDocument newDocument : Option Nat) :
    (abstractTileToolCalls (tool.activate eng) = ["activate"]
      ∧ abstractToolCalls (tool.activate eng) = []
      ∧ (callbackArgs (tool.activate eng) "activated").length =
        (if (ScriptObject.property tool.mScriptObject "activated").isCallable
         then 1 else 0))
    ∧ (abstractTileToolCalls (tool.deactivate eng) = ["deactivate"]
      ∧ abstractToolCalls (tool.deactivate eng) = []
      ∧ (callbackArgs (tool.deactivate eng) "deactivated").length =
        (if (ScriptObject.property tool.mScriptObject "deactivated").isCallable
         then 1 else 0))
    ∧ (abstractTileToolCalls (tool.keyPressed eng key modifiers) = []
      ∧ abstractToolCalls (tool.keyPressed eng key modifiers) = []
      ∧ (callbackArgs (tool.keyPressed eng key modifiers) "keyPressed").length =
        (if (ScriptObject.property tool.mScriptObject "keyPressed").isCallable
         then 1 else 0))
    ∧ (abstractTileToolCalls (tool.mouseEntered eng) = ["mouseEntered"]
      ∧ abstractToolCalls (tool.mouseEntered eng) = []
      ∧ (callbackArgs (tool.mouseEntered eng) "mouseEntered").length =
        (if (ScriptObject.property tool.mScriptObject "mouseEntered").isCallable
         then 1 else 0))
    ∧ (abstractTileToolCalls (tool.mouseLeft eng) = ["mouseLeft"]
      ∧ abstractToolCalls (tool.mouseLeft eng) = []
      ∧ (callbackArgs (tool.mouseLeft eng) "mouseEntered").length =
        (if (ScriptObject.property tool.mScriptObject "mouseEntered").isCallable
         then 1 else 0))
    ∧ (abstractTileToolCalls (tool.mouseMoved eng posX posY modifiers) = ["mouseMoved"]
      ∧ abstractToolCalls (tool.mouseMoved eng posX posY modifiers) = []
      ∧ (callbackArgs (tool.mouseMoved eng posX posY modifiers) "mouseMoved").length =
        (if (ScriptObject.property tool.mScriptObject "mouseMoved").isCallable
         then 1 else 0))
    ∧ (abstractTileToolCalls (tool.mousePressed eng e) = []
      ∧ abstractToolCalls (tool.mousePressed eng e) = []
      ∧ (callbackArgs (tool.mousePressed eng e) "mousePressed").length =
        (if (ScriptObject.property tool.mScriptObject "mousePressed").isCallable
         then 1 else 0))
    ∧ (abstractTileToolCalls (tool.mouseReleased eng e) = []
      ∧ abstractToolCalls (tool.mouseReleased eng e) = []
      ∧ (callbackArgs (tool.mouseReleased eng e) "mouseReleased").length =
        (if (ScriptObject.property tool.mScriptObject "mouseReleased").isCallable
         then 1 else 0))
    ∧ (abstractTileToolCalls (tool.mouseDoubleClicked eng e) = []
      ∧ abstractToolCalls (tool.mouseDoubleClicked eng e) = []
      ∧ (callbackArgs (tool.mouseDoubleClicked eng e) "mouseDoubleClicked").length =
        (if (ScriptObject.property tool.mScriptObject "mouseDoubleClicked").isCallable
         then 1 else 0)
      ∧ tool.mouseDoubleClicked eng e =
        (if (ScriptObject.property tool.mScriptObject "mouseDoubleClicked").isCallable
         then (tool.call eng "mouseDoubleClicked" (sceneMouseEventArgs e)).2
         else tool.mousePressed eng e))
    ∧ (abstractTileToolCalls (tool.modifiersChanged eng modifiers) = []
      ∧ abstractToolCalls (tool.modifiersChanged eng modifiers) = []
      ∧ (callbackArgs (tool.modifiersChanged eng modifiers) "modifiersChanged").length =
        (if (ScriptObject.property tool.mScriptObject "modifiersChanged").isCallable
         then 1 else 0))
    ∧ (abstractTileToolCalls (tool.languageChanged eng) = []
      ∧ abstractToolCalls (tool.languageChanged eng) = []
      ∧ (callbackArgs (tool.languageChanged eng) "languageChanged").length =
        (if (ScriptObject.property tool.mScriptObject "languageChanged").isCallable
         then 1 else 0))
    ∧ (abstractTileToolCalls (tool.mapDocumentChanged eng oldDocument newDocument) =
        ["mapDocumentChanged"]
      ∧ abstractToolCalls (tool.mapDocumentChanged eng oldDocument newDocument) = []
      ∧ (callbackArgs (tool.mapDocumentChanged eng oldDocument newDocument)
          "mapChanged").length =
        (if (ScriptObject.property tool.mScriptObject "mapChanged").isCallable
         then 1 else 0))
    ∧ (abstractTileToolCalls (tool.tilePositionChanged eng tileX tileY) = []
      ∧ abstractToolCalls (tool.tilePositionChanged eng tileX tileY) = []
      ∧ (callbackArgs (tool.tilePositionChanged eng tileX tileY)
          "tilePositionChanged").length =
        (if (ScriptObject.property tool.mScriptObject "tilePositionChanged").isCallable
         then 1 else 0))
    ∧ (abstractTileToolCalls (tool.updateEnabledState eng) = []
      ∧ abstractToolCalls (tool.updateEnabledState eng) =
        (if (ScriptObject.property tool.mScriptObject "updateEnabledState").isCallable
         then [] else ["updateEnabledState"])
      ∧ (callbackArgs (tool.updateEnabledState eng) "updateEnabledState").length =
        (if (ScriptObject.property tool.mScriptObject "updateEnabledState").isCallable
         then 1 else 0)) := by
  refine ⟨?_, ?_, ?_, ?_, ?_, ?_, ?_, ?_, ?_, ?_, ?_, ?_, ?_, ?_⟩
  · by_cases h : (ScriptObject.property tool.mScriptObject "activated").isCallable <;>
      simp [ScriptedTool.activate, call_snd, h, abstractTileToolCalls,
        abstractToolCalls, callbackArgs]
  · by_cases h : (ScriptObject.property tool.mScriptObject "deactivated").isCallable <;>
      simp [ScriptedTool.deactivate, call_snd, h, abstractTileToolCalls,
        abstractToolCalls, callbackArgs]
  · by_cases h : (ScriptObject.property tool.mScriptObject "keyPressed").isCallable <;>
      simp [ScriptedTool.keyPressed, call_snd, h, abstractTileToolCalls,
        abstractToolCalls, callbackArgs]
  · by_cases h : (ScriptObject.property tool.mScriptObject "mouseEntered").isCallable <;>
      simp [ScriptedTool.mouseEntered, call_snd, h, abstractTileToolCalls,
        abstractToolCalls, callbackArgs]
  · by_cases h : (ScriptObject.property tool.mScriptObject "mouseEntered").isCallable <;>
      simp [ScriptedTool.mouseLeft, call_snd, h, abstractTileToolCalls,
        abstractToolCalls, callbackArgs]
  · by_cases h : (ScriptObject.property tool.mScriptObject "mouseMoved").isCallable <;>
      simp [ScriptedTool.mouseMoved, call_snd, h, abstractTileToolCalls,
        abstractToolCalls, callbackArgs]
  · by_cases h : (ScriptObject.property tool.mScriptObject "mousePressed").isCallable <;>
      simp [ScriptedTool.mousePressed, call_snd, h, abstractTileToolCalls,
        abstractToolCalls, callbackArgs]
  · by_cases h : (ScriptObject.property tool.mScriptObject "mouseReleased").isCallable <;>
      simp [ScriptedTool.mouseReleased, call_snd, h, abstractTileToolCalls,
        abstractToolCalls, callbackArgs]
  · by_cases h1 : (ScriptObject.property tool.mScriptObject "mouseDoubleClicked").isCallable <;>
      by_cases h2 : (ScriptObject.property tool.mScriptObject "mousePressed").isCallable <;>
      simp [ScriptedTool.mouseDoubleClicked, ScriptedTool.mousePressed, call_fst,
        call_snd, h1, h2, abstractTileToolCalls, abstractToolCalls, callbackArgs]
  · by_cases h : (ScriptObject.property tool.mScriptObject "modifiersChanged").isCallable <;>
      simp [ScriptedTool.modifiersChanged, call_snd, h, abstractTileToolCalls,
        abstractToolCalls, callbackArgs]
  · by_cases h : (ScriptObject.property tool.mScriptObject "languageChanged").isCallable <;>
      simp [ScriptedTool.languageChanged, call_snd, h, abstractTileToolCalls,
        abstractToolCalls, callbackArgs]
  · by_cases h : (ScriptObject.property tool.mScriptObject "mapChanged").isCallable <;>
      simp [ScriptedTool.mapDocumentChanged, call_snd, h, abstractTileToolCalls,
        abstractToolCalls, callbackArgs]
  · by_cases h : (ScriptObject.property tool.mScriptObject "tilePositionChanged").isCallable <;>
      simp [ScriptedTool.tilePositionChanged, call_snd, h, abstractTileToolCalls,
        abstractToolCalls, callbackArgs]
  · by_cases h : (ScriptObject.property tool.mScriptObject "updateEnabledState").isCallable <;>
      simp [ScriptedTool.updateEnabledState, call_fst, call_snd, h,
        abstractTileToolCalls, abstractToolCalls, callbackArgs]

end Tiled
